import Mathlib

/-!
Verification of the cluster-topology model and provisioning workflow of
`cephperftests/ceph_perf.py`.

The Python module manipulates a JSON-backed topology record (an
`OrderedDict` per cluster, holding node `OrderedDict`s) and drives two
external collaborators: the VM-lifecycle API (`Core.create_linode`) and the
configuration-management runner (`AnsibleProvisioner.exec_playbook`,
`wait_for_ping`).  The embedding below is shallow:

* JSON documents are an inductive `Json` whose objects are ordered
  association lists, exactly the information an `OrderedDict` carries
  (`simplejson.dump`/`load` with `object_pairs_hook=OrderedDict` are the
  external serializer; they transport the document, key order included, so
  the on-disk file is modelled as the document itself).
* The local filesystem holding the topology files is `Store`, a map from
  path to document.
* The VM-lifecycle collaborator is a parameter `LinodeSpec → Option Linode`;
  the configuration-management collaborator's invocations are recorded as a
  list of `PlaybookCall`s; SSH reachability polling and the fetched
  public-key file are a `ProvEnv` parameter.
* Python exceptions (`KeyError`, `IndexError`, `TypeError`) are `Except
  PyErr`; effects performed before an uncaught exception are discarded by
  the model.
-/

/-- A JSON document.  Objects are ordered association lists: the Python
module builds them as `collections.OrderedDict` and reloads them with
`object_pairs_hook=collections.OrderedDict`, so insertion order is part of
the value. -/
inductive Json where
  | num : Int → Json
  | str : String → Json
  | arr : List Json → Json
  | obj : List (String × Json) → Json

/-- First-match lookup in an ordered association list (Python `d[k]` read). -/
def alookup {β : Type} : List (String × β) → String → Option β
  | [], _ => none
  | (k, v) :: rest, key => if k = key then some v else alookup rest key

/-- Write into an ordered association list: replace the value at an existing
key in place, else append (Python `d[k] = v`, and the filesystem's
path-to-file map). -/
def awrite {β : Type} : List (String × β) → String → β → List (String × β)
  | [], p, v => [(p, v)]
  | (q, w) :: rest, p, v => if q = p then (p, v) :: rest else (q, w) :: awrite rest p v

/-- The exceptions the Python code can raise on the paths modelled here.
`malformedRecord` abstracts the various errors raised when a stored
document does not match the record schema; it is never reached for
documents this module wrote. -/
inductive PyErr where
  | keyError : String → PyErr
  | typeError : PyErr
  | indexError : PyErr
  | malformedRecord : PyErr
deriving DecidableEq

/-- One provisioned machine's record (a node `OrderedDict`).  `id`,
`public_ip`, `private_ip` are always set at creation; `fqdn` and
`shortname` are set for admin/monitor/server nodes but never for clients;
`pubkey` is appended only after key-exchange provisioning. -/
structure Node where
  id : String
  public_ip : String
  private_ip : String
  fqdn : Option String := none
  shortname : Option String := none
  pubkey : Option String := none
deriving DecidableEq

/-- The root topology record (the cluster `OrderedDict`): field insertion
order is `name`, `dc`, `admin`, `monitors`, `servers`, `clients`.  The
initially empty admin dict `{}` is `none`. -/
structure Cluster where
  name : String
  dc : Int
  admin : Option Node := none
  monitors : List Node := []
  servers : List Node := []
  clients : List Node := []
deriving DecidableEq

/-- Serialize an optional node field in its insertion position: absent
fields were simply never inserted into the `OrderedDict`. -/
def optField (key : String) : Option String → List (String × Json)
  | none => []
  | some s => [(key, Json.str s)]

/-- A node's `OrderedDict` as built by the module: `id`, `public_ip`,
`private_ip`, then `fqdn`/`shortname` when the role sets them, with
`pubkey` appended after provisioning. -/
def Node.toJson (n : Node) : Json :=
  Json.obj ([("id", Json.str n.id), ("public_ip", Json.str n.public_ip),
             ("private_ip", Json.str n.private_ip)]
    ++ optField "fqdn" n.fqdn ++ optField "shortname" n.shortname
    ++ optField "pubkey" n.pubkey)

/-- The cluster `OrderedDict` as built by `create_cluster` and mutated by
the add-node operations, in its insertion order. -/
def Cluster.toJson (c : Cluster) : Json :=
  Json.obj [("name", Json.str c.name), ("dc", Json.num c.dc),
            ("admin", match c.admin with | none => Json.obj [] | some a => a.toJson),
            ("monitors", Json.arr (c.monitors.map Node.toJson)),
            ("servers", Json.arr (c.servers.map Node.toJson)),
            ("clients", Json.arr (c.clients.map Node.toJson))]

/-- Read an optional string field of a node object. -/
def optStrField (kvs : List (String × Json)) (key : String) : Option (Option String) :=
  match alookup kvs key with
  | none => some none
  | some (Json.str s) => some (some s)
  | some _ => none

/-- Parse a node object back into a `Node`. -/
def Node.fromJson (j : Json) : Option Node :=
  match j with
  | Json.obj kvs =>
    match alookup kvs "id", alookup kvs "public_ip", alookup kvs "private_ip",
          optStrField kvs "fqdn", optStrField kvs "shortname", optStrField kvs "pubkey" with
    | some (Json.str i), some (Json.str pub), some (Json.str priv), some f, some s, some k =>
      some { id := i, public_ip := pub, private_ip := priv, fqdn := f, shortname := s, pubkey := k }
    | _, _, _, _, _, _ => none
  | _ => none

/-- Parse a list of node objects. -/
def nodeListFromJson : List Json → Option (List Node)
  | [] => some []
  | j :: rest =>
    match Node.fromJson j, nodeListFromJson rest with
    | some n, some ns => some (n :: ns)
    | _, _ => none

/-- Parse the `admin` field: the empty dict `{}` the record starts with, or
a node object. -/
def adminFromJson (j : Json) : Option (Option Node) :=
  match j with
  | Json.obj [] => some none
  | _ =>
    match Node.fromJson j with
    | some n => some (some n)
    | none => none

/-- Parse a stored cluster document back into a `Cluster`. -/
def Cluster.fromJson (j : Json) : Option Cluster :=
  match j with
  | Json.obj kvs =>
    match alookup kvs "name", alookup kvs "dc", alookup kvs "admin",
          alookup kvs "monitors", alookup kvs "servers", alookup kvs "clients" with
    | some (Json.str nm), some (Json.num d), some aj,
      some (Json.arr ms), some (Json.arr ss), some (Json.arr cs) =>
      match adminFromJson aj, nodeListFromJson ms, nodeListFromJson ss, nodeListFromJson cs with
      | some ad, some mons, some servs, some clis =>
        some { name := nm, dc := d, admin := ad, monitors := mons, servers := servs, clients := clis }
      | _, _, _, _ => none
    | _, _, _, _, _, _ => none
  | _ => none

/-- The filesystem as seen by the Topology Store: path to stored JSON
document. -/
abbrev Store : Type := List (String × Json)

/-- The implicit configuration root directory (`conf_dir()`). -/
def conf_dir : String := "./cephperfdata"

/-- `<root>/<name>` (`cluster_dir` in `save_cluster`). -/
def cluster_dir (name : String) : String := conf_dir ++ "/" ++ name

/-- `<root>/<name>/<name>.json`, the deterministic storage location. -/
def clusterPath (name : String) : String := cluster_dir name ++ "/" ++ name ++ ".json"

/-- `load_cluster`: return the parsed document at the cluster's path, or
`None` when the file does not exist.  `json.load` with
`object_pairs_hook=OrderedDict` yields the document with key order kept. -/
def load_cluster (st : Store) (name : String) : Option Json :=
  alookup st (clusterPath name)

/-- `save_cluster`: serialize the full record to
`<root>/<cluster[name]>/<cluster[name]>.json` (creating the directory when
absent).  The record must be an object with a string `name` field, else the
path computation raises. -/
def save_cluster (st : Store) (cluster : Json) : Except PyErr Store :=
  match cluster with
  | Json.obj kvs =>
    match alookup kvs "name" with
    | some (Json.str nm) => Except.ok (awrite st (clusterPath nm) cluster)
    | some _ => Except.error PyErr.typeError
    | none => Except.error (PyErr.keyError "name")
  | _ => Except.error PyErr.typeError

/-- `save_cluster` specialized to a well-formed record (its `name` key is
always present and a string); `save_cluster_toJson` below proves the two
agree. -/
def tsave (st : Store) (c : Cluster) : Store :=
  awrite st (clusterPath c.name) c.toJson

/-- `load_cluster` followed by reading the document as a typed record. -/
def tload (st : Store) (name : String) : Option Cluster :=
  (load_cluster st name).bind Cluster.fromJson

/-- `create_cluster`: refuse to overwrite an existing record (report
"already exists", return `None`), else build the fresh record with empty
collections and persist it immediately.  Result: (filesystem, returned
value, printed messages). -/
def create_cluster (st : Store) (name : String) (datacenter : Int) :
    Store × Option Cluster × List String :=
  match load_cluster st name with
  | some _ =>
    (st, none,
     ["Cluster " ++ name ++ " already exists. Use a different name or load this one instead of creating."])
  | none =>
    let cluster : Cluster :=
      { name := name, dc := datacenter, admin := none, monitors := [], servers := [], clients := [] }
    (tsave st cluster, some cluster, [])

/-- The machine returned by the VM-lifecycle collaborator
(`Core.create_linode`): provider id, list of public IPs, private IP. -/
structure Linode where
  id : String
  public_ip : List String
  private_ip : String
deriving DecidableEq

/-- One disk in a machine-creation request.  The client boot size
`2.5*1024` is the exact integer 2560. -/
structure DiskSpec where
  label : Option String := none
  disk_size : Int
  type : Option String := none
deriving DecidableEq

/-- The `disks` part of a machine-creation request: mandatory boot and swap
volumes plus role-specific extra volumes. -/
structure DisksSpec where
  boot : DiskSpec
  swap : DiskSpec
  others : List DiskSpec := []
deriving DecidableEq

/-- A machine-creation request as the module builds it. -/
structure LinodeSpec where
  plan_id : Nat
  datacenter : Int
  distribution : String
  kernel : String
  label : String
  group : String
  disks : DisksSpec
deriving DecidableEq

/-- The request `add_admin_mon_node` builds: plan 1, small boot+swap-only
layout, label `cephadmin`. -/
def admin_linode_spec (cluster : Cluster) : LinodeSpec :=
  { plan_id := 1
    datacenter := cluster.dc
    distribution := "Ubuntu 14.04 LTS"
    kernel := "Latest 64 bit"
    label := "cephadmin"
    group := "cephperftests"
    disks := { boot := { disk_size := 22 * 1024 }, swap := { disk_size := 2048 } } }

/-- The request `add_mon_node` builds: same layout, label `cephmon1`. -/
def mon_linode_spec (cluster : Cluster) : LinodeSpec :=
  { plan_id := 1
    datacenter := cluster.dc
    distribution := "Ubuntu 14.04 LTS"
    kernel := "Latest 64 bit"
    label := "cephmon1"
    group := "cephperftests"
    disks := { boot := { disk_size := 22 * 1024 }, swap := { disk_size := 2048 } } }

/-- The request `add_server` builds for the 1-based `server_index`: plan 7,
boot+swap plus the bulk `osd` volume and the separate `osdjournal`
volume. -/
def server_linode_spec (cluster : Cluster) (server_index : Nat) : LinodeSpec :=
  { plan_id := 7
    datacenter := cluster.dc
    distribution := "Ubuntu 14.04 LTS"
    kernel := "Latest 64 bit"
    label := "cephosdrgw-" ++ toString server_index
    group := "cephperftests"
    disks := { boot := { disk_size := 10 * 1024 }, swap := { disk_size := 2 * 1024 },
               others := [{ label := some "osd", disk_size := 360 * 1024, type := some "xfs" },
                          { label := some "osdjournal", disk_size := 12 * 1024, type := some "xfs" }] } }

/-- The request `add_client` builds for the 1-based `client_index`: plan 1,
boot+swap plus one `testhd` data volume, group `perftests`. -/
def client_linode_spec (cluster : Cluster) (client_index : Nat) : LinodeSpec :=
  { plan_id := 1
    datacenter := cluster.dc
    distribution := "Ubuntu 14.04 LTS"
    kernel := "Latest 64 bit"
    label := "perfclient-" ++ toString client_index
    group := "perftests"
    disks := { boot := { disk_size := 2560 }, swap := { disk_size := 512 },
               others := [{ label := some "testhd", disk_size := 20 * 1024, type := some "xfs" }] } }

/-- `add_admin_mon_node`: load the record, request one machine, and on
success record it under both the `admin` key and, with the monitor's
fqdn/shortname, as the sole entry of `monitors`, then persist.  On
collaborator failure the record is left untouched and an error is
reported.  Loading a missing cluster raises (subscripting `None`). -/
def add_admin_mon_node (st : Store) (name : String)
    (create_linode : LinodeSpec → Option Linode) :
    Except PyErr (Store × List String) :=
  match load_cluster st name with
  | none => Except.error PyErr.typeError
  | some doc =>
    match Cluster.fromJson doc with
    | none => Except.error PyErr.malformedRecord
    | some cluster =>
      match create_linode (admin_linode_spec cluster) with
      | none => Except.ok (st, ["Could not create admin node"])
      | some linode =>
        match linode.public_ip.head? with
        | none => Except.error PyErr.indexError
        | some ip0 =>
          let admin : Node :=
            { id := linode.id, public_ip := ip0, private_ip := linode.private_ip,
              fqdn := some ("cephadmin." ++ cluster.name), shortname := some "cephadmin" }
          let monitor : Node :=
            { admin with fqdn := some ("cephmon1." ++ cluster.name), shortname := some "cephmon1" }
          let cluster1 := { cluster with admin := some admin, monitors := [monitor] }
          Except.ok (tsave st cluster1, [])

/-- `add_mon_node`: like the admin path but the machine is recorded only as
the sole monitor: `cluster['monitors'] = [mon]` replaces whatever list was
there. -/
def add_mon_node (st : Store) (name : String)
    (create_linode : LinodeSpec → Option Linode) :
    Except PyErr (Store × List String) :=
  match load_cluster st name with
  | none => Except.error PyErr.typeError
  | some doc =>
    match Cluster.fromJson doc with
    | none => Except.error PyErr.malformedRecord
    | some cluster =>
      match create_linode (mon_linode_spec cluster) with
      | none => Except.ok (st, ["Could not create mon node"])
      | some linode =>
        match linode.public_ip.head? with
        | none => Except.error PyErr.indexError
        | some ip0 =>
          let mon : Node :=
            { id := linode.id, public_ip := ip0, private_ip := linode.private_ip,
              fqdn := some ("cephmon1." ++ cluster.name), shortname := some "cephmon1" }
          let cluster1 := { cluster with monitors := [mon] }
          Except.ok (tsave st cluster1, [])

/-- The server node `OrderedDict` built by `add_server` at the 1-based
`server_index`: names are derived from the append-time position. -/
def mkServerNode (cname : String) (linode : Linode) (ip0 : String) (server_index : Nat) : Node :=
  { id := linode.id, public_ip := ip0, private_ip := linode.private_ip,
    fqdn := some ("cephosdrgw" ++ toString server_index ++ "." ++ cname),
    shortname := some ("cephosdrgw" ++ toString server_index) }

/-- `add_server`: load the record, compute `server_index =
len(cluster['servers']) + 1`, request one storage machine, and on success
append the new server node and persist.  On collaborator failure the
record is left untouched and an error is reported. -/
def add_server (st : Store) (name : String)
    (create_linode : LinodeSpec → Option Linode) :
    Except PyErr (Store × List String) :=
  match load_cluster st name with
  | none => Except.error PyErr.typeError
  | some doc =>
    match Cluster.fromJson doc with
    | none => Except.error PyErr.malformedRecord
    | some cluster =>
      let server_index := cluster.servers.length + 1
      match create_linode (server_linode_spec cluster server_index) with
      | none => Except.ok (st, ["Could not create server node"])
      | some linode =>
        match linode.public_ip.head? with
        | none => Except.error PyErr.indexError
        | some ip0 =>
          let server := mkServerNode cluster.name linode ip0 server_index
          let cluster1 := { cluster with servers := cluster.servers ++ [server] }
          Except.ok (tsave st cluster1, [])

/-- `N` successive `add_server` calls against the same cluster name, the
`k`-th one served by machine `machines k`. -/
def iterate_add_server (name : String) (machines : Nat → Linode) : Nat → Store → Except PyErr Store
  | 0, st => Except.ok st
  | Nat.succ k, st =>
    match iterate_add_server name machines k st with
    | Except.error e => Except.error e
    | Except.ok st1 =>
      match add_server st1 name (fun _ => some (machines k)) with
      | Except.error e => Except.error e
      | Except.ok r => Except.ok r.1

/-- The environment one provisioning call runs in: the result of the SSH
reachability wait, the content of the public-key file the provisioning
playbook is expected to fetch (`none` when the file is absent afterwards),
and the process working directory (`os.path.abspath` resolves against
it). -/
structure ProvEnv where
  ping_ok : Bool
  pubkey_file : Option String
  cwd : String

/-- A value in a playbook's variable bag. -/
inductive PVar where
  | str : String → PVar
  | hostEntries : List (String × String × String) → PVar
deriving DecidableEq

/-- One invocation of the configuration-management collaborator:
`exec_playbook(targets, playbook, variables)` — `pvars` is the `variables`
keyword argument.  A single-host call has a one-element target list. -/
structure PlaybookCall where
  targets : List String
  playbook : String
  pvars : List (String × PVar)
deriving DecidableEq

/-- `str.strip` of newline characters, applied to the fetched key file's
content. -/
def strip_newlines (s : String) : String :=
  String.mk (((s.toList.dropWhile (fun ch => ch = '\n')).reverse.dropWhile
      (fun ch => ch = '\n')).reverse)

/-- `os.path.abspath` for the `./`-prefixed relative paths this module
builds: normalization drops the `./` prefix and any trailing slash, and the
working directory is prepended. -/
def os_path_abspath (cwd p : String) : String :=
  let cs := p.toList
  let cs1 := if cs.take 2 = ['.', '/'] then cs.drop 2 else cs
  let cs2 := if cs1.getLast? = some '/' then cs1.dropLast else cs1
  cwd ++ "/" ++ String.mk cs2

/-- Read a node's `pubkey` entry (Python `n['pubkey']`, raising `KeyError`
when provisioning never recorded one). -/
def getKey (n : Node) : Except PyErr String :=
  match n.pubkey with
  | some k => Except.ok k
  | none => Except.error (PyErr.keyError "pubkey")

/-- A Python list comprehension over `l` applying the fallible `f`
left-to-right: the first raise propagates. -/
def eachE {α β : Type} (f : α → Except PyErr β) : List α → Except PyErr (List β)
  | [] => Except.ok []
  | a :: rest =>
    match f a, eachE f rest with
    | Except.error e, _ => Except.error e
    | Except.ok _, Except.error e => Except.error e
    | Except.ok b, Except.ok bs => Except.ok (b :: bs)

/-- `conf_dir()/<client id>/id_rsa.pub`, where `perf_client.yaml` fetches
the client's public key (the relative path, as the module checks and
reports it). -/
def client_pubkey_file (client : Node) : String :=
  conf_dir ++ "/" ++ client.id ++ "/id_rsa.pub"

/-- The `perf_client.yaml` invocation: client tooling plus key fetch into
`pubkey_dir` (sent as an absolute path). -/
def perf_client_call (env : ProvEnv) (client : Node) : PlaybookCall :=
  { targets := [client.public_ip]
    playbook := "ansible/perf_client.yaml"
    pvars := [("pubkey_dir", PVar.str (os_path_abspath env.cwd (conf_dir ++ "/" ++ client.id ++ "/")))] }

/-- The tail of `provision_client`: collect the keys of all previously
known clients (`cluster['clients'][:-1]`) and of all servers; when that
list is non-empty, authorize them all on the new client and push the new
client's own key to every one of those prior members.  Returns the
playbook invocations and printed messages. -/
def add_authorized_calls (cluster : Cluster) (client : Node) :
    Except PyErr (List PlaybookCall × List String) :=
  match eachE getKey cluster.clients.dropLast with
  | Except.error e => Except.error e
  | Except.ok other_keys0 =>
    match eachE getKey cluster.servers with
    | Except.error e => Except.error e
    | Except.ok server_keys =>
      let other_keys := other_keys0 ++ server_keys
      if other_keys.isEmpty then Except.ok ([], [])
      else
        let call1 : PlaybookCall :=
          { targets := [client.public_ip]
            playbook := "ansible/add_authorized_keys.yaml"
            pvars := [("keys", PVar.str ("\n\n" ++ String.intercalate "\n" other_keys ++ "\n"))] }
        let targets := cluster.clients.dropLast.map Node.public_ip
                        ++ cluster.servers.map Node.public_ip
        match getKey client with
        | Except.error e => Except.error e
        | Except.ok ckey =>
          let call2 : PlaybookCall :=
            { targets := targets
              playbook := "ansible/add_authorized_keys.yaml"
              pvars := [("keys", PVar.str (ckey ++ "\n"))] }
          Except.ok ([call1, call2], ["Adding authorized keys"])

/-- `provision_client(cluster, client)`.  The `client` argument is the dict
at position `idx` of `cluster['clients']` (its only caller passes the
freshly appended last entry; Python's aliasing of that dict is modelled by
updating the list at `idx`).  Waits for SSH, runs `perf_client.yaml`,
records the fetched public key (persisting the record) or reports the
missing file, then builds the incremental authorized-keys mesh.  Result:
(filesystem, record, playbook invocations, printed messages). -/
def provision_client (env : ProvEnv) (st : Store) (cluster : Cluster) (idx : Nat) :
    Except PyErr (Store × Cluster × List PlaybookCall × List String) :=
  match cluster.clients[idx]? with
  | none => Except.error PyErr.indexError
  | some client =>
    if !env.ping_ok then
      Except.ok (st, cluster, [], ["Unable to reach " ++ client.public_ip ++ " over SSH"])
    else
      let call0 := perf_client_call env client
      match env.pubkey_file with
      | some raw =>
        let pubkey := strip_newlines raw
        let client1 : Node := { client with pubkey := some pubkey }
        let cluster1 := { cluster with clients := cluster.clients.set idx client1 }
        match add_authorized_calls cluster1 client1 with
        | Except.error e => Except.error e
        | Except.ok (calls, msgs) =>
          Except.ok (tsave st cluster1, cluster1, call0 :: calls, "Provisioning client" :: msgs)
      | none =>
        match add_authorized_calls cluster client with
        | Except.error e => Except.error e
        | Except.ok (calls, msgs) =>
          Except.ok (st, cluster, call0 :: calls,
            "Provisioning client"
              :: ("Error: public key " ++ client_pubkey_file client ++ " not found") :: msgs)

/-- `add_client`: load the record, compute `client_index =
len(cluster['clients']) + 1`, request one machine, and on success append
the new client node (no fqdn/shortname), persist, and provision it.  On
collaborator failure the record is left untouched and an error is
reported. -/
def add_client (env : ProvEnv) (st : Store) (name : String)
    (create_linode : LinodeSpec → Option Linode) :
    Except PyErr (Store × List PlaybookCall × List String) :=
  match load_cluster st name with
  | none => Except.error PyErr.typeError
  | some doc =>
    match Cluster.fromJson doc with
    | none => Except.error PyErr.malformedRecord
    | some cluster =>
      let client_index := cluster.clients.length + 1
      match create_linode (client_linode_spec cluster client_index) with
      | none => Except.ok (st, [], ["Could not create perf client"])
      | some linode =>
        match linode.public_ip.head? with
        | none => Except.error PyErr.indexError
        | some ip0 =>
          let client : Node := { id := linode.id, public_ip := ip0, private_ip := linode.private_ip }
          let cluster1 := { cluster with clients := cluster.clients ++ [client] }
          let st1 := tsave st cluster1
          match provision_client env st1 cluster1 (cluster1.clients.length - 1) with
          | Except.error e => Except.error e
          | Except.ok (st2, _, calls, msgs) => Except.ok (st2, calls, msgs)

/-- `provision_server(cluster, server)`.  The `server` argument is the dict
at position `idx` of `cluster['servers']` (aliasing modelled as for
clients).  The reachability wait's result is ignored at this call site.
Sets the hostname, runs `ceph_server.yaml`, records the fetched public key
(persisting the record) or reports the missing file, then authorizes the
admin node's key on the server (`cluster['admin']['pubkey']`, raising when
no admin key was ever recorded). -/
def provision_server (env : ProvEnv) (st : Store) (cluster : Cluster) (idx : Nat) :
    Except PyErr (Store × Cluster × List PlaybookCall × List String) :=
  match cluster.servers[idx]? with
  | none => Except.error PyErr.indexError
  | some server =>
    match server.shortname with
    | none => Except.error (PyErr.keyError "shortname")
    | some sn =>
      let call0 : PlaybookCall :=
        { targets := [server.public_ip]
          playbook := "ansible/change_hostname.yaml"
          pvars := [("new_hostname", PVar.str (sn ++ "local"))] }
      match server.fqdn with
      | none => Except.error (PyErr.keyError "fqdn")
      | some fq =>
        let pubkey_file :=
          os_path_abspath env.cwd (conf_dir ++ "/" ++ cluster.name ++ "/pubkeys/" ++ fq ++ ".pub")
        let call1 : PlaybookCall :=
          { targets := [server.public_ip]
            playbook := "ansible/ceph_server.yaml"
            pvars := [("local_pubkey_file", PVar.str pubkey_file)] }
        let finish := fun (st1 : Store) (cluster1 : Cluster) (msgs : List String) =>
          match cluster1.admin with
          | none => Except.error (PyErr.keyError "pubkey")
          | some a =>
            match a.pubkey with
            | none => Except.error (PyErr.keyError "pubkey")
            | some ak =>
              let call2 : PlaybookCall :=
                { targets := [server.public_ip]
                  playbook := "ansible/add_authorized_keys.yaml"
                  pvars := [("keys", PVar.str (ak ++ "\n")), ("cluster", PVar.str cluster1.name)] }
              Except.ok (st1, cluster1, [call0, call1, call2], msgs)
        match env.pubkey_file with
        | some raw =>
          let server1 : Node := { server with pubkey := some (strip_newlines raw) }
          let cluster1 := { cluster with servers := cluster.servers.set idx server1 }
          finish (tsave st cluster1) cluster1 ["Provisioning server"]
        | none =>
          finish st cluster
            ["Provisioning server", "Error: public key " ++ pubkey_file ++ " not found"]

/-- One `/etc/hosts` entry `{ip, fqdn, shortname}` for a storage-cluster
node (Python builds a dict in that key order; `ip` is the node's private
IP).  Raises when the node never got its role names. -/
def hostEntryOf (n : Node) : Except PyErr (String × String × String) :=
  match n.fqdn, n.shortname with
  | some f, some s => Except.ok (n.private_ip, f, s)
  | none, _ => Except.error (PyErr.keyError "fqdn")
  | some _, none => Except.error (PyErr.keyError "shortname")

/-- `update_storage_fqdn_entries`: build one hosts-table entry for the
admin node, each monitor and each storage server — clients are neither
listed nor targeted — and push the whole table plus the cluster name to
all those nodes in one `modify_hosts_file.yaml` invocation.  An admin
record still `{}` raises `KeyError` at `cluster['admin']['private_ip']`. -/
def update_storage_fqdn_entries (cluster : Cluster) : Except PyErr (List PlaybookCall) :=
  match cluster.admin with
  | none => Except.error (PyErr.keyError "private_ip")
  | some admin =>
    match hostEntryOf admin with
    | Except.error e => Except.error e
    | Except.ok ae =>
      match eachE hostEntryOf cluster.monitors with
      | Except.error e => Except.error e
      | Except.ok mes =>
        match eachE hostEntryOf cluster.servers with
        | Except.error e => Except.error e
        | Except.ok ses =>
          let host_entries := ae :: (mes ++ ses)
          let targets := admin.public_ip
            :: (cluster.monitors.map Node.public_ip ++ cluster.servers.map Node.public_ip)
          Except.ok
            [{ targets := targets
               playbook := "ansible/modify_hosts_file.yaml"
               pvars := [("host_entries", PVar.hostEntries host_entries),
                             ("cluster", PVar.str cluster.name)] }]

/-- A file-system operation, for stating how `save_cluster` writes: it
opens the target for a truncating in-place write (`open(path, 'w')` then
`json.dump`); there is no temporary file and no rename. -/
inductive FsOp where
  | makedirs : String → FsOp
  | openTruncWrite : String → FsOp
  | rename : String → String → FsOp
deriving DecidableEq

/-- The sequence of file-system operations `save_cluster` performs, given
whether `<root>/<name>` already exists: `os.makedirs` when it does not,
then the truncating in-place write of `<root>/<name>/<name>.json`. -/
def save_cluster_fsops (dirExists : Bool) (name : String) : List FsOp :=
  (if dirExists then [] else [FsOp.makedirs (cluster_dir name)])
    ++ [FsOp.openTruncWrite (clusterPath name)]

/-- The first `N` server nodes as `N` successive `add_server` appends name
them: entry `i` (0-based) carries the 1-based position `i + 1` in its
shortname and fqdn. -/
def namedServers (name : String) (machines : Nat → Linode) (ips : Nat → String) (N : Nat) :
    List Node :=
  (List.range N).map (fun i => mkServerNode name (machines i) (ips i) (i + 1))

/-- A VM-lifecycle collaborator that fails every creation request. -/
def noLinode : LinodeSpec → Option Linode := fun _ => none

/-- The machine of the admin+monitor scenario: id `L1`, public IP list
`["1.2.3.4"]`, private IP `10.0.0.1`. -/
def wLinodeL1 : Linode := { id := "L1", public_ip := ["1.2.3.4"], private_ip := "10.0.0.1" }

/-- A collaborator that answers every request with `wLinodeL1`. -/
def linodeL1 : LinodeSpec → Option Linode := fun _ => some wLinodeL1

/-- Machines for concrete `add_server` runs. -/
def wMachines : Nat → Linode :=
  fun k => { id := "srv" ++ toString k, public_ip := ["9.9.9." ++ toString k],
             private_ip := "10.0.9." ++ toString k }

/-- The first public IP of each of `wMachines`. -/
def wIps : Nat → String := fun k => "9.9.9." ++ toString k

/-- A freshly created cluster record named `t1` in datacenter 6. -/
def wEmptyT1 : Cluster := { name := "t1", dc := 6 }

/-- A filesystem holding only the fresh `t1` record. -/
def wStoreT1 : Store := awrite [] (clusterPath "t1") wEmptyT1.toJson

/-- A provisioned client with a recorded key. -/
def wClientA : Node :=
  { id := "100", public_ip := "1.1.1.1", private_ip := "10.0.0.1", pubkey := some "KEYA" }

/-- A second provisioned client with a recorded key. -/
def wClientB : Node :=
  { id := "101", public_ip := "1.1.1.2", private_ip := "10.0.0.2", pubkey := some "KEYB" }

/-- A freshly appended client: no key recorded yet. -/
def wClientC : Node :=
  { id := "102", public_ip := "1.1.1.3", private_ip := "10.0.0.3" }

/-- The admin node of the populated concrete cluster, key recorded. -/
def wAdmin : Node :=
  { id := "1", public_ip := "2.2.2.1", private_ip := "10.0.1.1",
    fqdn := some "cephadmin.t1", shortname := some "cephadmin", pubkey := some "ADMINKEY" }

/-- The monitor entry of the populated concrete cluster. -/
def wMon1 : Node :=
  { id := "1", public_ip := "2.2.2.1", private_ip := "10.0.1.1",
    fqdn := some "cephmon1.t1", shortname := some "cephmon1" }

/-- A storage server entry, no key recorded. -/
def wServer1 : Node :=
  { id := "2", public_ip := "2.2.2.2", private_ip := "10.0.1.2",
    fqdn := some "cephosdrgw1.t1", shortname := some "cephosdrgw1" }

/-- A second storage server entry. -/
def wServer2 : Node :=
  { id := "3", public_ip := "2.2.2.3", private_ip := "10.0.1.3",
    fqdn := some "cephosdrgw2.t1", shortname := some "cephosdrgw2" }

/-- A populated cluster: admin, one monitor, two servers, three clients. -/
def wCluster7 : Cluster :=
  { name := "t1", dc := 6, admin := some wAdmin, monitors := [wMon1],
    servers := [wServer1, wServer2], clients := [wClientA, wClientB, wClientC] }

/-- A filesystem holding the populated `t1` record. -/
def wStore7 : Store := awrite [] (clusterPath "t1") wCluster7.toJson

/-- Provisioning environment: reachable, key file fetched with a trailing
newline. -/
def wEnv8 : ProvEnv := { ping_ok := true, pubkey_file := some "KEYC\n", cwd := "/work" }

/-- A cluster provisioning its third client: two prior clients with keys,
no servers. -/
def wCluster8 : Cluster :=
  { name := "t1", dc := 6, clients := [wClientA, wClientB, wClientC] }

/-- Provisioning environment: reachable, but the expected public-key file
is absent afterwards. -/
def wEnv9 : ProvEnv := { ping_ok := true, pubkey_file := none, cwd := "/work" }

/-- A cluster provisioning its second client (one prior member with a
recorded key) — the input on which the missing-key-file path raises. -/
def wCluster9 : Cluster :=
  { name := "t1", dc := 6, clients := [wClientA, wClientC] }

/-- A cluster provisioning its first server, with the admin key already
recorded. -/
def wCluster9s : Cluster :=
  { name := "t1", dc := 6, admin := some wAdmin, servers := [wServer1] }

/-- A cluster provisioning its very first client: no prior members at
all. -/
def wCluster9e : Cluster := { name := "t1", dc := 6, clients := [wClientC] }

/-- A cluster that already records one monitor, for re-running
`add_mon_node` against it. -/
def wCluster10 : Cluster := { name := "t1", dc := 6, monitors := [wMon1] }

/-- A filesystem holding the one-monitor `t1` record. -/
def wStore10 : Store := awrite [] (clusterPath "t1") wCluster10.toJson

/-- The monitor node built from `wLinodeL1` for cluster `t1`. -/
def wMonL1 : Node :=
  { id := "L1", public_ip := "1.2.3.4", private_ip := "10.0.0.1",
    fqdn := some "cephmon1.t1", shortname := some "cephmon1" }

/-- A raw stored document (arbitrary key order, nested node objects) for
exercising the save/load round trip. -/
def wDoc1 : List (String × Json) :=
  [("name", Json.str "t1"), ("dc", Json.num 6),
   ("admin", Json.obj [("id", Json.str "L1"), ("pubkey", Json.str "K")]),
   ("monitors", Json.arr [Json.obj [("fqdn", Json.str "cephmon1.t1"), ("id", Json.str "L1")]])]

theorem alookup_awrite_self {β : Type} (st : List (String × β)) (p : String) (v : β) :
    alookup (awrite st p v) p = some v := by
  induction st with
  | nil => simp [awrite, alookup]
  | cons hd tl ih =>
    obtain ⟨q, w⟩ := hd
    by_cases h : q = p
    · simp [awrite, alookup, h]
    · simp [awrite, alookup, h, ih]

theorem awrite_awrite {β : Type} (st : List (String × β)) (p : String) (v w : β) :
    awrite (awrite st p v) p w = awrite st p w := by
  induction st with
  | nil => simp [awrite]
  | cons hd tl ih =>
    obtain ⟨q, u⟩ := hd
    by_cases h : q = p
    · simp [awrite, h]
    · simp [awrite, h, ih]

theorem awrite_of_alookup {β : Type} (st : List (String × β)) (p : String) (v : β)
    (h : alookup st p = some v) : awrite st p v = st := by
  induction st with
  | nil => simp [alookup] at h
  | cons hd tl ih =>
    obtain ⟨q, w⟩ := hd
    by_cases hq : q = p
    · subst hq
      simp [alookup] at h
      simp [awrite, h]
    · simp [alookup, hq] at h
      simp [awrite, hq, ih h]

theorem node_fromJson_toJson (n : Node) : Node.fromJson n.toJson = some n := by
  obtain ⟨i, pub, priv, f, s, k⟩ := n
  cases f <;> cases s <;> cases k <;> rfl

theorem adminFromJson_node (n : Node) : adminFromJson n.toJson = some (some n) := by
  show (match Node.fromJson n.toJson with
        | some m => some (some m)
        | none => none) = some (some n)
  rw [node_fromJson_toJson]

theorem nodeListFromJson_map (l : List Node) :
    nodeListFromJson (l.map Node.toJson) = some l := by
  induction l with
  | nil => rfl
  | cons n rest ih => simp [nodeListFromJson, node_fromJson_toJson, ih]

theorem cluster_fromJson_toJson (c : Cluster) : Cluster.fromJson c.toJson = some c := by
  obtain ⟨nm, d, ad, mons, servs, clis⟩ := c
  cases ad with
  | none =>
    show Cluster.fromJson (Json.obj _) = _
    simp [Cluster.fromJson, Cluster.toJson, alookup, adminFromJson, nodeListFromJson_map]
  | some a =>
    show Cluster.fromJson (Json.obj _) = _
    simp [Cluster.fromJson, Cluster.toJson, alookup, adminFromJson_node, nodeListFromJson_map]

theorem save_cluster_toJson (st : Store) (c : Cluster) :
    save_cluster st c.toJson = Except.ok (tsave st c) := rfl

theorem load_tsave (st : Store) (c : Cluster) :
    load_cluster (tsave st c) c.name = some c.toJson := by
  simp [load_cluster, tsave, alookup_awrite_self]

theorem tload_tsave (st : Store) (c : Cluster) :
    tload (tsave st c) c.name = some c := by
  simp [tload, load_tsave, cluster_fromJson_toJson]

theorem eachE_length {α β : Type} (f : α → Except PyErr β) (l : List α) (bs : List β)
    (h : eachE f l = Except.ok bs) : bs.length = l.length := by
  induction l generalizing bs with
  | nil => simp [eachE] at h; simp [← h]
  | cons a rest ih =>
    simp only [eachE] at h
    cases hf : f a with
    | error e => rw [hf] at h; exact absurd h (by simp)
    | ok b =>
      rw [hf] at h
      cases hr : eachE f rest with
      | error e => rw [hr] at h; exact absurd h (by simp)
      | ok cs =>
        rw [hr] at h
        simp at h
        simp [← h, ih cs hr]

theorem set_concat {α : Type} (l : List α) (a b : α) :
    (l ++ [a]).set l.length b = l ++ [b] := by
  induction l with
  | nil => rfl
  | cons x xs ih => simp [List.set, ih]

theorem getElem?_concat {α : Type} (l : List α) (a : α) :
    (l ++ [a])[l.length]? = some a := by
  induction l with
  | nil => rfl
  | cons x xs ih => simp [ih]

theorem add_server_ok (st : Store) (name : String) (f : LinodeSpec → Option Linode)
    (c : Cluster) (linode : Linode) (ip0 : String)
    (hload : load_cluster st name = some c.toJson)
    (hf : f (server_linode_spec c (c.servers.length + 1)) = some linode)
    (hip : linode.public_ip.head? = some ip0) :
    add_server st name f =
      Except.ok
        (tsave st { c with servers := c.servers ++ [mkServerNode c.name linode ip0 (c.servers.length + 1)] },
         []) := by
  simp [add_server, hload, cluster_fromJson_toJson, hf, hip]

theorem namedServers_succ (name : String) (machines : Nat → Linode) (ips : Nat → String) (k : Nat) :
    namedServers name machines ips (k + 1) =
      namedServers name machines ips k ++ [mkServerNode name (machines k) (ips k) (k + 1)] := by
  simp [namedServers, List.range_succ]

theorem iterate_add_server_ok (name : String) (machines : Nat → Linode) (ips : Nat → String)
    (hips : ∀ k, (machines k).public_ip.head? = some (ips k))
    (c : Cluster) (hname : c.name = name) (hserv : c.servers = [])
    (st : Store) (hload : load_cluster st name = some c.toJson) :
    ∀ N, iterate_add_server name machines N st =
      Except.ok (awrite st (clusterPath name)
        (Cluster.toJson { c with servers := namedServers name machines ips N })) := by
  intro N
  induction N with
  | zero =>
    have hc : { c with servers := namedServers name machines ips 0 } = c := by
      obtain ⟨nm, d, ad, mons, servs, clis⟩ := c
      simp only [namedServers, List.range_zero, List.map_nil]
      simp at hserv
      simp [hserv]
    rw [hc, awrite_of_alookup st (clusterPath name) c.toJson hload]
    rfl
  | succ k ih =>
    have hloadK :
        load_cluster (awrite st (clusterPath name)
          (Cluster.toJson { c with servers := namedServers name machines ips k })) name =
        some (Cluster.toJson { c with servers := namedServers name machines ips k }) := by
      simp [load_cluster, alookup_awrite_self]
    have hlen : ({ c with servers := namedServers name machines ips k } : Cluster).servers.length = k := by
      simp [namedServers]
    have hstep := add_server_ok _ name (fun _ => some (machines k))
      { c with servers := namedServers name machines ips k } (machines k) (ips k)
      hloadK rfl (hips k)
    rw [hlen] at hstep
    have e1 : ({ c with servers := namedServers name machines ips k ++ [mkServerNode c.name (machines k) (ips k) (k + 1)] } : Cluster).name = name := hname
    have hfin : tsave (awrite st (clusterPath name)
          (Cluster.toJson { c with servers := namedServers name machines ips k }))
        { c with servers := namedServers name machines ips k ++ [mkServerNode c.name (machines k) (ips k) (k + 1)] }
        = awrite st (clusterPath name)
            (Cluster.toJson { c with servers := namedServers name machines ips (k + 1) }) := by
      simp only [tsave, e1]
      rw [hname, ← namedServers_succ, awrite_awrite]
    simp only [iterate_add_server, ih]
    simp only [hstep]
    exact congrArg Except.ok hfin

theorem tload_awrite (st : Store) (c : Cluster) (nm : String) (h : c.name = nm) :
    tload (awrite st (clusterPath nm) c.toJson) nm = some c := by
  subst h
  exact tload_tsave st c

/-- Claim C1: `save_cluster` followed by `load_cluster` of the same name
returns the very document that was saved — field for field, with the
insertion order of cluster-level fields and of each node's fields
preserved (the document's association lists are returned unchanged) — and
a typed record reloads to an identical record. -/
theorem save_load_roundtrip (st : Store) (kvs : List (String × Json)) (nm : String) (c : Cluster)
    (h : alookup kvs "name" = some (Json.str nm)) :
    save_cluster st (Json.obj kvs) = Except.ok (awrite st (clusterPath nm) (Json.obj kvs)) ∧
    load_cluster (awrite st (clusterPath nm) (Json.obj kvs)) nm = some (Json.obj kvs) ∧
    save_cluster st c.toJson = Except.ok (tsave st c) ∧
    load_cluster (tsave st c) c.name = some c.toJson ∧
    tload (tsave st c) c.name = some c := by
  refine ⟨?_, ?_, save_cluster_toJson st c, load_tsave st c, tload_tsave st c⟩
  · simp [save_cluster, h]
  · simp [load_cluster, alookup_awrite_self]

/-- Witness for C1 at a concrete document and a concrete populated
record. -/
theorem save_load_roundtrip_witness :
    alookup wDoc1 "name" = some (Json.str "t1") ∧
    save_cluster ([] : Store) (Json.obj wDoc1) =
      Except.ok (awrite [] (clusterPath "t1") (Json.obj wDoc1)) ∧
    load_cluster (awrite [] (clusterPath "t1") (Json.obj wDoc1)) "t1" = some (Json.obj wDoc1) ∧
    tload (tsave [] wCluster7) wCluster7.name = some wCluster7 :=
  have h : alookup wDoc1 "name" = some (Json.str "t1") := rfl
  ⟨h, (save_load_roundtrip [] wDoc1 "t1" wCluster7 h).1,
    (save_load_roundtrip [] wDoc1 "t1" wCluster7 h).2.1,
    (save_load_roundtrip [] wDoc1 "t1" wCluster7 h).2.2.2.2⟩

/-- Claim C2: `create_cluster` on a fresh name builds the record with empty
admin/monitors/servers/clients and persists it immediately; against any
store already holding a record for the name — whatever document that is,
its collections empty or populated — `create_cluster` reports "already
exists", returns `None` and leaves the filesystem, hence the persisted
record, exactly as it was; in particular a create immediately after a
first create behaves that way. -/
theorem create_cluster_spec (st st2 : Store) (name : String) (dc dc2 : Int) (doc : Json)
    (h : load_cluster st name = none)
    (h2 : load_cluster st2 name = some doc) :
    create_cluster st name dc =
      (tsave st { name := name, dc := dc }, some { name := name, dc := dc }, []) ∧
    tload (tsave st { name := name, dc := dc }) name = some { name := name, dc := dc } ∧
    ({ name := name, dc := dc } : Cluster).admin = none ∧
    ({ name := name, dc := dc } : Cluster).monitors = [] ∧
    ({ name := name, dc := dc } : Cluster).servers = [] ∧
    ({ name := name, dc := dc } : Cluster).clients = [] ∧
    create_cluster st2 name dc2 =
      (st2, none,
       ["Cluster " ++ name ++ " already exists. Use a different name or load this one instead of creating."]) ∧
    load_cluster st2 name = some doc ∧
    create_cluster (tsave st { name := name, dc := dc }) name dc2 =
      (tsave st { name := name, dc := dc }, none,
       ["Cluster " ++ name ++ " already exists. Use a different name or load this one instead of creating."]) := by
  have hl : load_cluster (tsave st ({ name := name, dc := dc } : Cluster)) name =
      some ({ name := name, dc := dc } : Cluster).toJson := load_tsave st _
  refine ⟨?_, tload_tsave st _, rfl, rfl, rfl, rfl, ?_, h2, ?_⟩
  · simp [create_cluster, h]
  · simp [create_cluster, h2]
  · simp [create_cluster, hl]

/-- Witness for C2: create `t1` fresh, attempt a create against the
populated `t1` record (admin, monitor, servers and clients all present),
and attempt a create right after a first create. -/
theorem create_cluster_spec_witness :
    load_cluster ([] : Store) "t1" = none ∧
    load_cluster wStore7 "t1" = some wCluster7.toJson ∧
    create_cluster ([] : Store) "t1" 6 =
      (tsave [] { name := "t1", dc := 6 }, some { name := "t1", dc := 6 }, []) ∧
    create_cluster wStore7 "t1" 7 =
      (wStore7, none,
       ["Cluster t1 already exists. Use a different name or load this one instead of creating."]) ∧
    create_cluster (tsave [] { name := "t1", dc := 6 }) "t1" 7 =
      (tsave [] { name := "t1", dc := 6 }, none,
       ["Cluster t1 already exists. Use a different name or load this one instead of creating."]) :=
  have h := create_cluster_spec [] wStore7 "t1" 6 7 wCluster7.toJson rfl rfl
  ⟨rfl, rfl, h.1, h.2.2.2.2.2.2.1, h.2.2.2.2.2.2.2.2⟩

/-- Counterexample to C4: with the directory already present,
`save_cluster` performs exactly one file-system operation — a truncating
in-place write that opens the target file itself — and no rename of any
kind, so it is not write-then-rename or an equivalent. -/
theorem save_cluster_in_place_cex :
    save_cluster_fsops true "t1" = [FsOp.openTruncWrite (clusterPath "t1")] ∧
    ((save_cluster_fsops true "t1").any fun op =>
        match op with
        | FsOp.rename _ _ => true
        | _ => false) = false :=
  ⟨rfl, rfl⟩

/-- Claim C4 as amended: `save_cluster` creates the containing directory
when absent and then overwrites the target file by opening it for a
truncating in-place write; it never renames, so no write-then-rename
atomicity is provided. -/
theorem save_cluster_fsops_spec (dirExists : Bool) (name : String) :
    save_cluster_fsops dirExists name =
      (if dirExists then [FsOp.openTruncWrite (clusterPath name)]
       else [FsOp.makedirs (cluster_dir name), FsOp.openTruncWrite (clusterPath name)]) ∧
    (∀ src dst, FsOp.rename src dst ∉ save_cluster_fsops dirExists name) := by
  constructor
  · cases dirExists <;> rfl
  · intro src dst
    cases dirExists <;> simp [save_cluster_fsops]

/-- Claim C10: a successful `add_mon_node` assigns `monitors` to the
singleton list holding just the new monitor — replacing, not appending to,
whatever list was recorded — leaves name, datacenter, admin, servers and
clients unchanged, and persists that record; the persisted record's
monitors list has length exactly 1. -/
theorem add_mon_node_spec (st : Store) (name : String) (f : LinodeSpec → Option Linode)
    (c : Cluster) (linode : Linode) (ip0 : String)
    (hload : load_cluster st name = some c.toJson)
    (hf : f (mon_linode_spec c) = some linode)
    (hip : linode.public_ip.head? = some ip0) :
    (let mon : Node := { id := linode.id, public_ip := ip0, private_ip := linode.private_ip,
                         fqdn := some ("cephmon1." ++ c.name), shortname := some "cephmon1" }
     let c1 : Cluster := { c with monitors := [mon] }
     add_mon_node st name f = Except.ok (tsave st c1, []) ∧
     tload (tsave st c1) c.name = some c1 ∧
     c1.monitors.length = 1 ∧
     c1.name = c.name ∧ c1.dc = c.dc ∧ c1.admin = c.admin ∧
     c1.servers = c.servers ∧ c1.clients = c.clients) := by
  refine ⟨?_, tload_tsave st _, rfl, rfl, rfl, rfl, rfl, rfl⟩
  simp [add_mon_node, hload, cluster_fromJson_toJson, hf, hip]

/-- Witness for C10: re-running `add_mon_node` against a record that
already holds a monitor replaces it. -/
theorem add_mon_node_spec_witness :
    load_cluster wStore10 "t1" = some wCluster10.toJson ∧
    add_mon_node wStore10 "t1" linodeL1 =
      Except.ok (tsave wStore10 { wCluster10 with monitors := [wMonL1] }, []) ∧
    ({ wCluster10 with monitors := [wMonL1] } : Cluster).monitors.length = 1 :=
  have h := add_mon_node_spec wStore10 "t1" linodeL1 wCluster10 wLinodeL1 "1.2.3.4" rfl rfl rfl
  ⟨rfl, h.1, h.2.2.1⟩

/-- Claim C6: after `create_cluster("t1", 6)` and `add_admin_mon_node` with
a collaborator returning the machine (id `L1`, public IPs `["1.2.3.4"]`,
private IP `10.0.0.1`), loading `t1` yields a record whose admin is
`cephadmin`/`cephadmin.t1` and whose sole monitor is
`cephmon1`/`cephmon1.t1`, the two sharing id, public IP (the first of the
machine's list) and private IP while differing in fqdn and shortname. -/
theorem admin_mon_scenario :
    (let r := add_admin_mon_node (create_cluster ([] : Store) "t1" 6).1 "t1" linodeL1
     let ad : Node := { id := "L1", public_ip := "1.2.3.4", private_ip := "10.0.0.1",
                        fqdn := some "cephadmin.t1", shortname := some "cephadmin" }
     let mn : Node := { id := "L1", public_ip := "1.2.3.4", private_ip := "10.0.0.1",
                        fqdn := some "cephmon1.t1", shortname := some "cephmon1" }
     r.toOption.bind (fun p => tload p.1 "t1") =
       some { name := "t1", dc := 6, admin := some ad, monitors := [mn] } ∧
     ad.fqdn = some "cephadmin.t1" ∧ mn.fqdn = some "cephmon1.t1" ∧
     ad.shortname = some "cephadmin" ∧ mn.shortname = some "cephmon1" ∧
     ad.id = mn.id ∧ ad.public_ip = mn.public_ip ∧ ad.private_ip = mn.private_ip ∧
     ad.fqdn ≠ mn.fqdn ∧ ad.shortname ≠ mn.shortname) := by
  refine ⟨rfl, rfl, rfl, rfl, rfl, rfl, rfl, rfl, ?_, ?_⟩ <;> decide

/-- Claim C3: when the VM-lifecycle collaborator returns no usable machine,
`add_server`, `add_client` and `add_admin_mon_node` each report an error
and return with the filesystem — hence the persisted record, its `servers`
and `clients` collections included — exactly as it was; no playbook runs
for the failed client either. -/
theorem add_node_failure_no_mutation (env : ProvEnv) (st : Store) (name : String) (c : Cluster)
    (hload : load_cluster st name = some c.toJson) :
    add_server st name noLinode = Except.ok (st, ["Could not create server node"]) ∧
    add_client env st name noLinode = Except.ok (st, [], ["Could not create perf client"]) ∧
    add_admin_mon_node st name noLinode = Except.ok (st, ["Could not create admin node"]) ∧
    tload st name = some c := by
  refine ⟨?_, ?_, ?_, ?_⟩
  · simp [add_server, hload, cluster_fromJson_toJson, noLinode]
  · simp [add_client, hload, cluster_fromJson_toJson, noLinode]
  · simp [add_admin_mon_node, hload, cluster_fromJson_toJson, noLinode]
  · simp [tload, hload, cluster_fromJson_toJson]

/-- Witness for C3 against the populated `t1` record. -/
theorem add_node_failure_no_mutation_witness :
    load_cluster wStore7 "t1" = some wCluster7.toJson ∧
    add_server wStore7 "t1" noLinode = Except.ok (wStore7, ["Could not create server node"]) ∧
    add_client wEnv8 wStore7 "t1" noLinode =
      Except.ok (wStore7, [], ["Could not create perf client"]) ∧
    add_admin_mon_node wStore7 "t1" noLinode =
      Except.ok (wStore7, ["Could not create admin node"]) ∧
    tload wStore7 "t1" = some wCluster7 :=
  have h := add_node_failure_no_mutation wEnv8 wStore7 "t1" wCluster7 rfl
  ⟨rfl, h.1, h.2.1, h.2.2.1, h.2.2.2⟩

/-- Claim C5: `N` successive successful `add_server` calls starting from a
record with no servers yield exactly `N` entries, appended in order, the
0-based entry `i` carrying shortname `cephosdrgw(i+1)` and fqdn
`cephosdrgw(i+1).<name>` — names derived from the append-time position
`len(servers) + 1`, in strictly increasing 1-based order. -/
theorem add_server_naming_spec (name : String) (machines : Nat → Linode) (ips : Nat → String)
    (c : Cluster) (st : Store) (N : Nat)
    (hips : ∀ k, (machines k).public_ip.head? = some (ips k))
    (hname : c.name = name) (hserv : c.servers = [])
    (hload : load_cluster st name = some c.toJson) :
    (let cN : Cluster := { c with servers := namedServers name machines ips N }
     iterate_add_server name machines N st = Except.ok (awrite st (clusterPath name) cN.toJson) ∧
     tload (awrite st (clusterPath name) cN.toJson) name = some cN ∧
     cN.servers.length = N ∧
     (∀ i, i < N →
        (cN.servers[i]?).bind Node.shortname = some ("cephosdrgw" ++ toString (i + 1)) ∧
        (cN.servers[i]?).bind Node.fqdn =
          some ("cephosdrgw" ++ toString (i + 1) ++ "." ++ name))) := by
  refine ⟨iterate_add_server_ok name machines ips hips c hname hserv st hload N,
          tload_awrite st _ name hname, by simp [namedServers], ?_⟩
  intro i hi
  constructor <;>
    simp [namedServers, List.getElem?_map, List.getElem?_range, hi, mkServerNode]

/-- Witness for C5: three appends against the fresh `t1` record produce
shortnames `cephosdrgw1`, `cephosdrgw2`, `cephosdrgw3` in order. -/
theorem add_server_naming_witness :
    iterate_add_server "t1" wMachines 3 wStoreT1 =
      Except.ok (awrite wStoreT1 (clusterPath "t1")
        (Cluster.toJson { wEmptyT1 with servers := namedServers "t1" wMachines wIps 3 })) ∧
    ({ wEmptyT1 with servers := namedServers "t1" wMachines wIps 3 } : Cluster).servers.length = 3 ∧
    (namedServers "t1" wMachines wIps 3).map Node.shortname =
      [some "cephosdrgw1", some "cephosdrgw2", some "cephosdrgw3"] ∧
    (namedServers "t1" wMachines wIps 3).map Node.fqdn =
      [some "cephosdrgw1.t1", some "cephosdrgw2.t1", some "cephosdrgw3.t1"] :=
  have h := add_server_naming_spec "t1" wMachines wIps wEmptyT1 wStoreT1 3
    (fun _ => rfl) rfl rfl rfl
  ⟨h.1, h.2.2.1, rfl, rfl⟩

/-- Claim C7: for a populated cluster, the hosts table holds exactly one
entry `{ip, fqdn, shortname}` for the admin, one per monitor and one per
server — `1 + |monitors| + |servers|` in all, none for any client — and it
is pushed, with the cluster name, to exactly the admin's, monitors' and
servers' addresses in a single playbook invocation. -/
theorem update_storage_fqdn_spec (cluster : Cluster) (admin : Node)
    (ae : String × String × String) (mes ses : List (String × String × String))
    (ha : cluster.admin = some admin)
    (hae : hostEntryOf admin = Except.ok ae)
    (hm : eachE hostEntryOf cluster.monitors = Except.ok mes)
    (hs : eachE hostEntryOf cluster.servers = Except.ok ses) :
    update_storage_fqdn_entries cluster =
      Except.ok [{ targets := admin.public_ip
                     :: (cluster.monitors.map Node.public_ip ++ cluster.servers.map Node.public_ip),
                   playbook := "ansible/modify_hosts_file.yaml",
                   pvars := [("host_entries", PVar.hostEntries (ae :: (mes ++ ses))),
                             ("cluster", PVar.str cluster.name)] }] ∧
    (ae :: (mes ++ ses)).length = 1 + cluster.monitors.length + cluster.servers.length := by
  constructor
  · simp [update_storage_fqdn_entries, ha, hae, hm, hs]
  · simp [eachE_length _ _ _ hm, eachE_length _ _ _ hs]
    omega

/-- Witness for C7: admin + one monitor + two servers give a table of four
entries pushed to those four addresses; the three clients appear
nowhere. -/
theorem update_storage_fqdn_spec_witness :
    wCluster7.admin = some wAdmin ∧
    update_storage_fqdn_entries wCluster7 =
      Except.ok [{ targets := ["2.2.2.1", "2.2.2.1", "2.2.2.2", "2.2.2.3"],
                   playbook := "ansible/modify_hosts_file.yaml",
                   pvars := [("host_entries", PVar.hostEntries
                                [("10.0.1.1", "cephadmin.t1", "cephadmin"),
                                 ("10.0.1.1", "cephmon1.t1", "cephmon1"),
                                 ("10.0.1.2", "cephosdrgw1.t1", "cephosdrgw1"),
                                 ("10.0.1.3", "cephosdrgw2.t1", "cephosdrgw2")]),
                             ("cluster", PVar.str "t1")] }] ∧
    ([("10.0.1.1", "cephadmin.t1", "cephadmin"),
      ("10.0.1.1", "cephmon1.t1", "cephmon1"),
      ("10.0.1.2", "cephosdrgw1.t1", "cephosdrgw1"),
      ("10.0.1.3", "cephosdrgw2.t1", "cephosdrgw2")] :
        List (String × String × String)).length =
      1 + wCluster7.monitors.length + wCluster7.servers.length :=
  have h := update_storage_fqdn_spec wCluster7 wAdmin
    ("10.0.1.1", "cephadmin.t1", "cephadmin")
    [("10.0.1.1", "cephmon1.t1", "cephmon1")]
    [("10.0.1.2", "cephosdrgw1.t1", "cephosdrgw1"), ("10.0.1.3", "cephosdrgw2.t1", "cephosdrgw2")]
    rfl rfl rfl rfl
  ⟨rfl, h.1, h.2⟩

theorem add_authorized_calls_full (cluster : Cluster) (prior : List Node) (client : Node)
    (pks sks : List String)
    (hc : cluster.clients = prior ++ [client])
    (hpk : eachE getKey prior = Except.ok pks)
    (hsk : eachE getKey cluster.servers = Except.ok sks) :
    add_authorized_calls cluster client =
      (if (pks ++ sks).isEmpty then Except.ok ([], [])
       else
        match client.pubkey with
        | none => Except.error (PyErr.keyError "pubkey")
        | some ck =>
          Except.ok
            ([{ targets := [client.public_ip], playbook := "ansible/add_authorized_keys.yaml",
                pvars := [("keys", PVar.str ("\n\n" ++ String.intercalate "\n" (pks ++ sks) ++ "\n"))] },
              { targets := prior.map Node.public_ip ++ cluster.servers.map Node.public_ip,
                playbook := "ansible/add_authorized_keys.yaml",
                pvars := [("keys", PVar.str (ck ++ "\n"))] }],
             ["Adding authorized keys"])) := by
  have hdrop : cluster.clients.dropLast = prior := by
    rw [hc]
    exact List.dropLast_concat
  simp only [add_authorized_calls, hdrop, hpk, hsk]
  by_cases hemp : (pks ++ sks).isEmpty
  · simp [hemp]
  · cases hck : client.pubkey with
    | none => simp [hemp, getKey, hck]
    | some ck => simp [hemp, getKey, hck]

/-- Claim C8: provisioning the `k`-th client (all prior clients and all
servers having recorded keys, key file fetched) authorizes onto it exactly
the prior clients' keys followed by the servers' keys, and pushes exactly
the newcomer's own key to exactly those prior members' public IPs; when
there are no prior members, neither authorized-keys playbook is invoked. -/
theorem provision_client_mesh (env : ProvEnv) (st : Store) (cluster : Cluster)
    (prior : List Node) (client : Node) (pks sks : List String) (raw : String)
    (hc : cluster.clients = prior ++ [client])
    (hping : env.ping_ok = true)
    (hfile : env.pubkey_file = some raw)
    (hpk : eachE getKey prior = Except.ok pks)
    (hsk : eachE getKey cluster.servers = Except.ok sks) :
    (let client1 : Node := { client with pubkey := some (strip_newlines raw) }
     let cluster1 : Cluster := { cluster with clients := prior ++ [client1] }
     provision_client env st cluster prior.length =
       Except.ok (tsave st cluster1, cluster1,
         perf_client_call env client ::
           (if (pks ++ sks).isEmpty then []
            else
              [{ targets := [client.public_ip], playbook := "ansible/add_authorized_keys.yaml",
                 pvars := [("keys", PVar.str ("\n\n" ++ String.intercalate "\n" (pks ++ sks) ++ "\n"))] },
               { targets := prior.map Node.public_ip ++ cluster.servers.map Node.public_ip,
                 playbook := "ansible/add_authorized_keys.yaml",
                 pvars := [("keys", PVar.str (strip_newlines raw ++ "\n"))] }]),
         "Provisioning client" :: (if (pks ++ sks).isEmpty then [] else ["Adding authorized keys"]))) := by
  have hidx : cluster.clients[prior.length]? = some client := by
    rw [hc]
    exact getElem?_concat prior client
  have hset : cluster.clients.set prior.length { client with pubkey := some (strip_newlines raw) } =
      prior ++ [{ client with pubkey := some (strip_newlines raw) }] := by
    rw [hc]
    exact set_concat prior client _
  have hauth := add_authorized_calls_full
    { cluster with clients := prior ++ [{ client with pubkey := some (strip_newlines raw) }] }
    prior { client with pubkey := some (strip_newlines raw) } pks sks rfl hpk hsk
  simp only [provision_client, hidx, hping, hfile, Bool.not_true, hset]
  rw [hauth]
  by_cases hemp : (pks ++ sks).isEmpty
  · simp [hemp]
  · simp [hemp]

/-- Witness for C8: the third client (two prior clients with keys, no
servers) receives exactly `KEYA` and `KEYB` and zero server keys, and its
own key is pushed to a target list of size 2. -/
theorem provision_client_mesh_witness :
    provision_client wEnv8 [] wCluster8 2 =
      Except.ok
        (tsave [] { wCluster8 with clients := [wClientA, wClientB, { wClientC with pubkey := some "KEYC" }] },
         { wCluster8 with clients := [wClientA, wClientB, { wClientC with pubkey := some "KEYC" }] },
         [perf_client_call wEnv8 wClientC,
          { targets := ["1.1.1.3"], playbook := "ansible/add_authorized_keys.yaml",
            pvars := [("keys", PVar.str "\n\nKEYA\nKEYB\n")] },
          { targets := ["1.1.1.1", "1.1.1.2"], playbook := "ansible/add_authorized_keys.yaml",
            pvars := [("keys", PVar.str "KEYC\n")] }],
         ["Provisioning client", "Adding authorized keys"]) ∧
    (["1.1.1.1", "1.1.1.2"] : List String).length = 2 :=
  have h := provision_client_mesh wEnv8 [] wCluster8 [wClientA, wClientB] wClientC
    ["KEYA", "KEYB"] [] "KEYC\n" rfl rfl rfl rfl rfl
  ⟨h, rfl⟩

/-- Counterexample to C9: one prior client with a recorded key, then the
new client's expected public-key file is absent — the downstream push of
the new client's key is not silently skipped: `client['pubkey']` raises
`KeyError` and the operation aborts instead of continuing. -/
theorem provision_client_missing_key_cex :
    provision_client wEnv9 [] wCluster9 1 = Except.error (PyErr.keyError "pubkey") := rfl

/-- Claim C9 as amended: when the expected public-key file is absent after
the provisioning playbook, the error is reported with a message naming the
missing path and the node's `pubkey` stays unset; for a client the
downstream authorized-keys propagation is skipped without raising only
when the other-members key list is empty — with prior members' keys
present, the push is attempted and raises `KeyError` on the unset
`pubkey` — and for a server the downstream authorize step uses the admin's
key and proceeds regardless of the server's own missing key. -/
theorem provision_missing_key_spec
    (env : ProvEnv) (st : Store) (cluster : Cluster) (prior : List Node) (client : Node)
    (pks sks : List String)
    (env2 : ProvEnv) (st2 : Store) (cluster2 : Cluster) (idx2 : Nat) (server a2 : Node)
    (sn fq ak : String)
    (hc : cluster.clients = prior ++ [client])
    (hck : client.pubkey = none)
    (hping : env.ping_ok = true)
    (hfile : env.pubkey_file = none)
    (hpk : eachE getKey prior = Except.ok pks)
    (hsk : eachE getKey cluster.servers = Except.ok sks)
    (hsrv : cluster2.servers[idx2]? = some server)
    (hsn : server.shortname = some sn)
    (hfq : server.fqdn = some fq)
    (hfile2 : env2.pubkey_file = none)
    (ha2 : cluster2.admin = some a2)
    (hak : a2.pubkey = some ak) :
    (provision_client env st cluster prior.length =
      (if (pks ++ sks).isEmpty then
        Except.ok (st, cluster, [perf_client_call env client],
          ["Provisioning client",
           "Error: public key " ++ client_pubkey_file client ++ " not found"])
       else Except.error (PyErr.keyError "pubkey"))) ∧
    provision_server env2 st2 cluster2 idx2 =
      Except.ok (st2, cluster2,
        [{ targets := [server.public_ip], playbook := "ansible/change_hostname.yaml",
           pvars := [("new_hostname", PVar.str (sn ++ "local"))] },
         { targets := [server.public_ip], playbook := "ansible/ceph_server.yaml",
           pvars := [("local_pubkey_file", PVar.str (os_path_abspath env2.cwd
             (conf_dir ++ "/" ++ cluster2.name ++ "/pubkeys/" ++ fq ++ ".pub")))] },
         { targets := [server.public_ip], playbook := "ansible/add_authorized_keys.yaml",
           pvars := [("keys", PVar.str (ak ++ "\n")), ("cluster", PVar.str cluster2.name)] }],
        ["Provisioning server",
         "Error: public key " ++ os_path_abspath env2.cwd
           (conf_dir ++ "/" ++ cluster2.name ++ "/pubkeys/" ++ fq ++ ".pub") ++ " not found"]) := by
  constructor
  · have hidx : cluster.clients[prior.length]? = some client := by
      rw [hc]
      exact getElem?_concat prior client
    have hauth := add_authorized_calls_full cluster prior client pks sks hc hpk hsk
    simp only [provision_client, hidx, hping, hfile, Bool.not_true]
    rw [hauth]
    by_cases hemp : (pks ++ sks).isEmpty
    · simp [hemp]
    · simp [hemp, hck]
  · simp [provision_server, hsrv, hsn, hfq, hfile2, ha2, hak]

/-- Witness for the amended C9: a first client with no prior members skips
both propagation playbooks without raising, reporting the missing path;
the first server still gets the admin key authorized despite its own
missing key file. -/
theorem provision_missing_key_spec_witness :
    wClientC.pubkey = none ∧
    provision_client wEnv9 [] wCluster9e 0 =
      Except.ok ([], wCluster9e, [perf_client_call wEnv9 wClientC],
        ["Provisioning client", "Error: public key ./cephperfdata/102/id_rsa.pub not found"]) ∧
    provision_server wEnv9 [] wCluster9s 0 =
      Except.ok ([], wCluster9s,
        [{ targets := [wServer1.public_ip], playbook := "ansible/change_hostname.yaml",
           pvars := [("new_hostname", PVar.str ("cephosdrgw1" ++ "local"))] },
         { targets := [wServer1.public_ip], playbook := "ansible/ceph_server.yaml",
           pvars := [("local_pubkey_file", PVar.str (os_path_abspath wEnv9.cwd
             (conf_dir ++ "/" ++ wCluster9s.name ++ "/pubkeys/" ++ "cephosdrgw1.t1" ++ ".pub")))] },
         { targets := [wServer1.public_ip], playbook := "ansible/add_authorized_keys.yaml",
           pvars := [("keys", PVar.str ("ADMINKEY" ++ "\n")), ("cluster", PVar.str wCluster9s.name)] }],
        ["Provisioning server",
         "Error: public key " ++ os_path_abspath wEnv9.cwd
           (conf_dir ++ "/" ++ wCluster9s.name ++ "/pubkeys/" ++ "cephosdrgw1.t1" ++ ".pub")
           ++ " not found"]) ∧
    os_path_abspath wEnv9.cwd
        (conf_dir ++ "/" ++ wCluster9s.name ++ "/pubkeys/" ++ "cephosdrgw1.t1" ++ ".pub") =
      "/work/cephperfdata/t1/pubkeys/cephosdrgw1.t1.pub" ∧
    wServer1.public_ip = "2.2.2.2" :=
  have h := provision_missing_key_spec wEnv9 [] wCluster9e [] wClientC [] []
    wEnv9 [] wCluster9s 0 wServer1 wAdmin "cephosdrgw1" "cephosdrgw1.t1" "ADMINKEY"
    rfl rfl rfl rfl rfl rfl rfl rfl rfl rfl rfl rfl
  ⟨rfl, h.1, h.2, rfl, rfl⟩
